import Mathlib
set_option maxRecDepth 100000
set_option maxHeartbeats 2000000

/-!
Verification development for the digital-twin RAG toolkit.

The definitions below are a shallow embedding of the Python sources:
`scripts/namespaced_rag_query.py`, `scripts/embed_digitaltwin_namespaced.py`,
`scripts/embed_foods_namespaced.py`, `scripts/interview_optimization_framework.py`,
`scripts/recruiter_satisfaction_trainer.py` and `company_response_customizer.py`.
Python dictionaries holding metadata become structures with `Option` fields
(a missing key is `none`); Python `None` for a whole metadata record is the
outer `Option`; relevance scores are opaque rationals; fallible external
calls are modelled with `Except`.
-/

namespace DigitalTwin

/-- Substring test on character lists: Python `needle in hay`. -/
def listContains (needle hay : List Char) : Bool :=
  needle.isPrefixOf hay ||
    match hay with
    | [] => false
    | _ :: t => listContains needle t

/-- Python `needle in hay` on strings (substring containment). -/
def strContains (hay needle : String) : Bool :=
  listContains needle.toList hay.toList

/-- Python `s.lower()` (ASCII, which is all these scripts contain). -/
def lowerStr (s : String) : String := ⟨s.data.map Char.toLower⟩

/-- Word counting: `1` at each character that starts a maximal
non-whitespace run (`inWord` says whether a run is already open). -/
def wordCountAux : List Char → Bool → Nat
  | [], _ => 0
  | c :: cs, inWord =>
    if c.isWhitespace then wordCountAux cs false
    else (if inWord then 0 else 1) + wordCountAux cs true

/-- Python `len(s.split())`: number of maximal non-whitespace runs. -/
def wordCount (s : String) : Nat := wordCountAux s.data false

/-! ## `scripts/namespaced_rag_query.py` — `NamespacedRAGSystem` -/

/-- The metadata dictionary stored with a vector.  Each field is `none` when
the corresponding key is absent from the Python dict. -/
structure Metadata where
  title : Option String := none
  type : Option String := none
  category : Option String := none
  content : Option String := none
  tags : Option (List String) := none
  /-- the `namespace` key of the metadata dict -/
  ns : Option String := none
  source : Option String := none
  deriving Repr, DecidableEq

/-- A raw hit returned by `index.query`: id, score, optional metadata
(`none` models a hit with no metadata at all). -/
structure RawResult where
  id : String
  score : ℚ
  metadata : Option Metadata
  deriving Repr, DecidableEq

/-- The formatted `chunk_info` dict built inside `query_namespace`. -/
structure ChunkInfo where
  id : String
  score : ℚ
  title : String
  type : String
  category : String
  content : String
  tags : List String
  /-- the `namespace` key of the chunk dict -/
  ns : String
  deriving Repr, DecidableEq

/-- `result.metadata.get('namespace', 'unknown') if result.metadata else 'unknown'` -/
def rawNamespaceOf (r : RawResult) : String :=
  match r.metadata with
  | some m => m.ns.getD "unknown"
  | none => "unknown"

/-- The `chunk_info` record built for one raw result inside the loop of
`query_namespace` (each `.get` default is reproduced). -/
def formatResult (r : RawResult) : ChunkInfo :=
  { id := r.id
    score := r.score
    title := (match r.metadata with | some m => m.title.getD "Untitled" | none => "Untitled")
    type := (match r.metadata with | some m => m.type.getD "unknown" | none => "unknown")
    category := (match r.metadata with | some m => m.category.getD "general" | none => "general")
    content := (match r.metadata with | some m => m.content.getD "" | none => "")
    tags := (match r.metadata with | some m => m.tags.getD [] | none => [])
    ns := rawNamespaceOf r }

/-- `NamespacedRAGSystem.query_namespace`, given the raw result list the
store returned for the query: the `if not results: return []` guard, then
the loop that skips every result whose derived namespace differs from the
requested one and formats the rest in order. -/
def query_namespace (query ns : String) (top_k : Nat) (results : List RawResult) :
    List ChunkInfo :=
  if results.isEmpty then []
  else ((results.filter (fun r => rawNamespaceOf r == ns)).map formatResult)

/-- The `top_k` value the code passes to `index.query` (the call is
`self.index.query(data=query, top_k=top_k, include_metadata=True)`). -/
def requestedTopK (top_k : Nat) : Nat := top_k

/-- `query_namespace` with the backing store explicit: the store is asked
for `requestedTopK top_k` results and the reply is post-filtered. -/
def query_namespace_store (store : String → Nat → List RawResult)
    (query ns : String) (top_k : Nat) : List ChunkInfo :=
  query_namespace query ns top_k (store query (requestedTopK top_k))

/-- `query_namespace` with the store call's outcome explicit: the
`try/except` returns `[]` on any exception. -/
def query_namespace_exc (storeReply : Except String (List RawResult))
    (query ns : String) (top_k : Nat) : List ChunkInfo :=
  match storeReply with
  | .error _ => []
  | .ok results => query_namespace query ns top_k results

def dt_system_prompt : String :=
  "You are Jashandeep's AI Digital Twin. Answer questions about Jashandeep's professional background, skills, experience, and qualifications based on the provided context. \n\nBe conversational and personal, as if you are Jashandeep speaking about yourself. Use \"I\" and \"my\" when referring to experiences and achievements. Provide specific examples and details from the context.\n\nFor interview questions, provide STAR format responses when appropriate (Situation, Task, Action, Result)."

def food_system_prompt : String :=
  "You are a knowledgeable food and nutrition assistant. Answer questions about foods, nutrition, cooking, and dietary information based on the provided context.\n\nProvide helpful, accurate information about food items, their nutritional benefits, preparation methods, and cultural significance. Be informative yet conversational."

def generic_system_prompt : String :=
  "You are a helpful assistant. Answer questions based on the provided context."

/-- `NamespacedRAGSystem.generate_response`: empty chunk list short-circuits
to the placeholder string; otherwise the context is assembled and the
completion service (modelled as a function to `Except`) is called, its
failure caught. -/
def generate_response (complete : String → String → Except String String)
    (query : String) (relevant_chunks : List ChunkInfo) (ns : String) : String :=
  if relevant_chunks.isEmpty then
    "I couldn't find relevant information in the '" ++ ns ++ "' namespace for your query."
  else
    let context := String.intercalate "\n---\n"
      (relevant_chunks.map fun c =>
        "Title: " ++ c.title ++ "\nType: " ++ c.type ++ "\nContent: " ++ c.content ++ "\n")
    let system_prompt :=
      if ns == "dt" then dt_system_prompt
      else if ns == "food" then food_system_prompt
      else generic_system_prompt
    match complete system_prompt
        ("Context:\n" ++ context ++ "\n\nQuestion: " ++ query ++ "\n\nAnswer:") with
    | .ok text => text
    | .error e => "Error generating response: " ++ e

/-! ## Upsert pipelines of the two embedding scripts -/

/-- A content chunk as produced by `create_content_chunks` /
`create_food_chunks` (the fields the upsert loops read). -/
structure SrcChunk where
  id : String
  title : String
  type : String
  category : String
  content : String
  tags : List String
  deriving Repr, DecidableEq

/-- One prepared vector: (id, embedded text, metadata). -/
structure PreparedVector where
  id : String
  text : String
  meta : Metadata
  deriving Repr, DecidableEq

/-- The vector built for one chunk in `embed_digitaltwin_namespaced.py`
(`NAMESPACE = "digitaltwin"`): id `f"dt-{chunk['id']}"`, enhanced content,
metadata with `"namespace": NAMESPACE` and `"source": "digital_twin"`. -/
def dtVector (c : SrcChunk) : PreparedVector :=
  { id := "dt-" ++ c.id
    text := "Title: " ++ c.title ++ ". Type: " ++ c.type ++ ". Category: " ++ c.category
      ++ ". Content: " ++ c.content
    meta := { title := some c.title, type := some c.type, category := some c.category,
              content := some c.content, tags := some c.tags,
              ns := some "digitaltwin", source := some "digital_twin" } }

/-- The vector built for one chunk in `embed_foods_namespaced.py`
(`NAMESPACE = "foods"`): id `f"food-{chunk['id']}"`, metadata with
`"namespace": NAMESPACE` and `"source": "foods_data"`. -/
def foodVector (c : SrcChunk) : PreparedVector :=
  { id := "food-" ++ c.id
    text := "Food: " ++ c.title ++ ". " ++ c.content
    meta := { title := some c.title, type := some c.type, category := some c.category,
              content := some c.content, tags := some c.tags,
              ns := some "foods", source := some "foods_data" } }

/-- A stored vector coming back as a raw query hit with some score. -/
def asRawResult (v : PreparedVector) (score : ℚ) : RawResult :=
  { id := v.id, score := score, metadata := some v.meta }

/-! ## A small regular-expression engine

The classifier and validator use `re.search` with a fixed set of
hand-written patterns.  The patterns only use literals, alternation,
grouping, `.`/`\d`/`\s` character classes, `?`, `*`/`+`/`{n}` applied to a
single character class, and the word boundary `\b`; the engine below
covers exactly that fragment with enumerative (hence complete) matching. -/

/-- Regular-expression abstract syntax for the fragment the scripts use. -/
inductive Re where
  /-- matches the empty string -/
  | eps : Re
  /-- matches nothing -/
  | fail : Re
  /-- a literal string -/
  | lit : String → Re
  /-- one character of a class -/
  | cls : (Char → Bool) → Re
  /-- zero or more characters of a class (`.*`, `\s*`, …) -/
  | starCls : (Char → Bool) → Re
  /-- concatenation -/
  | seq : Re → Re → Re
  /-- alternation -/
  | alt : Re → Re → Re
  /-- the word boundary `\b` -/
  | bnd : Re

namespace Re

/-- `.` (Python `re.search` without DOTALL: any character except newline) -/
def anyc : Re := .cls (fun c => c != '\n')

/-- `\d` -/
def digit : Re := .cls Char.isDigit

/-- `.*` (newline excluded, as for `.`) -/
def dotStar : Re := .starCls (fun c => c != '\n')

/-- `\s*` -/
def wsStar : Re := .starCls Char.isWhitespace

/-- `r?` -/
def opt (r : Re) : Re := .alt r .eps

/-- `\d+` -/
def digitPlus : Re := .seq digit (.starCls Char.isDigit)

/-- `\d{n}` -/
def digitRep : Nat → Re
  | 0 => .eps
  | n + 1 => .seq digit (digitRep n)

/-- sequence of a list of expressions -/
def cat (rs : List Re) : Re := rs.foldr .seq .eps

/-- alternation over a list of expressions -/
def altL (rs : List Re) : Re := rs.foldr .alt .fail

/-- is `c` a word character (`\w`)? -/
def isWordChar (c : Char) : Bool := c.isAlphanum || c == '_'

/-- word-character test on the optional previous character (string edge is
a non-word position). -/
def optWord : Option Char → Bool
  | some c => isWordChar c
  | none => false

/-- Match a literal's characters against the front of the input, tracking
the last consumed character. -/
def litMatch : List Char → Option Char → List Char → List (Option Char × List Char)
  | [], prev, s => [(prev, s)]
  | _ :: _, _, [] => []
  | c :: cs, _, d :: ds => if c == d then litMatch cs (some d) ds else []

/-- All ways for `starCls p` to consume a prefix of the input. -/
def starSplits (p : Char → Bool) : Option Char → List Char →
    List (Option Char × List Char)
  | prev, [] => [(prev, [])]
  | prev, c :: cs =>
    (prev, c :: cs) :: (if p c then starSplits p (some c) cs else [])

/-- All states `(last consumed char, rest)` reachable by matching `r`
against a prefix of the input. -/
def matchK : Re → Option Char → List Char → List (Option Char × List Char)
  | .eps, prev, s => [(prev, s)]
  | .fail, _, _ => []
  | .lit t, prev, s => litMatch t.toList prev s
  | .cls _, _, [] => []
  | .cls p, _, c :: cs => if p c then [(some c, cs)] else []
  | .starCls p, prev, s => starSplits p prev s
  | .seq a b, prev, s => (matchK a prev s).flatMap fun st => matchK b st.1 st.2
  | .alt a b, prev, s => matchK a prev s ++ matchK b prev s
  | .bnd, prev, s =>
    let nextWord := match s with | [] => false | c :: _ => isWordChar c
    if optWord prev != nextWord then [(prev, s)] else []

/-- Does `r` match starting at some position of the remaining input?
(`prev` is the character just before the current position.) -/
def searchAux (r : Re) : Option Char → List Char → Bool
  | prev, s =>
    !(matchK r prev s).isEmpty ||
      match s with
      | [] => false
      | c :: cs => searchAux r (some c) cs

/-- Python `re.search(r, s)` (existence of a match anywhere). -/
def search (r : Re) (s : String) : Bool := searchAux r none s.toList

end Re

/-! ## `scripts/interview_optimization_framework.py` — `QueryClassifier` -/

/-- The `QueryType` enumeration. -/
inductive QueryType where
  | behavioral
  | technical
  | project_specific
  | company_specific
  | salary_location
  | availability
  | personal_story
  | general
  deriving Repr, DecidableEq

open Re in
/-- `self.behavioral_patterns` -/
def behavioral_patterns : List Re :=
  [ cat [.lit "tell me about ", altL [.lit "a time", .lit "when", .lit "yourself"]],
    cat [.lit "describe ", altL [.lit "a situation", .lit "an experience", .lit "how you"]],
    .lit "give me an example",
    .lit "walk me through",
    cat [.lit "how do you ", altL [.lit "handle", .lit "deal with", .lit "approach"]],
    .lit "what would you do if",
    cat [.lit "challenging ", altL [.lit "project", .lit "situation", .lit "experience"]],
    cat [.lit "difficult ", altL [.lit "customer", .lit "situation", .lit "decision"]],
    altL [.lit "conflict", .lit "disagreement", .lit "problem"],
    altL [.lit "leadership", .lit "mentor", .lit "team"],
    altL [.lit "failure", .lit "mistake", .lit "learn from"],
    altL [.lit "strength", .lit "weakness", .lit "improve"],
    altL [.lit "motivation", .lit "passion", .lit "drive"] ]

open Re in
/-- `self.technical_patterns` -/
def technical_patterns : List Re :=
  [ cat [.lit "explain ", altL [.lit "your experience with",
      cat [.lit "how", dotStar, .lit "work", opt (.lit "s")]]],
    altL [.lit "what is", cat [.lit "how does", dotStar, .lit "work"]],
    .lit "difference between",
    altL [.lit "implement", .lit "build", .lit "develop", .lit "code"],
    altL [.lit "algorithm", .lit "data structure"],
    altL [.lit "database", .lit "API", .lit "framework"],
    altL [.lit "deployment", .lit "cloud", .lit "architecture"],
    altL [.lit "testing", .lit "debugging", .lit "optimization"],
    altL [.lit "RAG", .lit "AI", .lit "ML", .lit "vector", .lit "embedding"],
    altL [.lit "React", .lit "Next.js", .lit "Python", .lit "JavaScript"],
    altL [cat [.lit "full", opt anyc, .lit "stack"], .lit "frontend", .lit "backend"] ]

open Re in
/-- `self.project_patterns` -/
def project_patterns : List Re :=
  [ .lit "Food RAG Explorer",
    altL [.lit "digital twin", .lit "personal digital twin"],
    cat [.lit "full", opt anyc, .lit "stack", dotStar, .lit "application"],
    altL [.lit "portfolio", .lit "github", .lit "project"],
    cat [.lit "internship", dotStar, .lit "project"],
    cat [.lit "ausbiz", dotStar, .lit "project"] ]

open Re in
/-- `self.company_patterns` -/
def company_patterns : List Re :=
  [ altL [cat [.lit "why", dotStar, .lit "company"], cat [.lit "why", dotStar, .lit "us"]],
    .lit "what do you know about",
    cat [.lit "research", dotStar, .lit "company"],
    altL [cat [.lit "fit", dotStar, .lit "culture"], cat [.lit "culture", dotStar, .lit "fit"]],
    altL [cat [.lit "contribute", dotStar, .lit "team"], cat [.lit "add", dotStar, .lit "value"]] ]

open Re in
/-- `self.salary_patterns` -/
def salary_patterns : List Re :=
  [ altL [.lit "salary", .lit "compensation", .lit "pay", .lit "money"],
    cat [.lit "expectations", dotStar, .lit "salary"],
    altL [.lit "budget", .lit "rate", .lit "cost"],
    altL [.lit "relocate", .lit "location", .lit "remote", .lit "hybrid"],
    altL [.lit "visa", .lit "authorization", .lit "eligibility"] ]

open Re in
/-- `self.availability_patterns` -/
def availability_patterns : List Re :=
  [ altL [.lit "start date", cat [.lit "when", dotStar, .lit "start"], .lit "availability"],
    altL [cat [.lit "notice", dotStar, .lit "period"], cat [.lit "current", dotStar, .lit "job"]],
    altL [.lit "graduate", .lit "graduation", cat [.lit "finish", dotStar, .lit "degree"]],
    altL [cat [.lit "part", opt anyc, .lit "time"], cat [.lit "full", opt anyc, .lit "time"],
      cat [.lit "hours", dotStar, .lit "week"]] ]

/-- `any(re.search(pattern, question_lower) for pattern in patterns)` -/
def matchesAny (patterns : List Re) (s : String) : Bool :=
  patterns.any (fun r => Re.search r s)

/-- `QueryClassifier.classify_query`: the chain of pattern-group checks in
source order, `GENERAL` as default. -/
def classify_query (question : String) : QueryType :=
  let question_lower := lowerStr question
  if matchesAny behavioral_patterns question_lower then .behavioral
  else if matchesAny technical_patterns question_lower then .technical
  else if matchesAny project_patterns question_lower then .project_specific
  else if matchesAny company_patterns question_lower then .company_specific
  else if matchesAny salary_patterns question_lower then .salary_location
  else if matchesAny availability_patterns question_lower then .availability
  else .general

/-! ## `ResponseTemplateGenerator` — behavioral templates and dispatch -/

/-- `ResponseTemplateGenerator._format_challenging_project_response` -/
def format_challenging_project_response : String :=
  "My Food RAG Explorer project presented a significant technical challenge that pushed my abilities.\n\n**Situation:** I built an AI application locally using Ollama and ChromaDB, but needed to migrate it to production for real-world use - something I'd never done before.\n\n**Task:** Transition from local development to cloud deployment while maintaining functionality and learning production-grade AI architecture along the way.\n\n**Action:** I systematically researched and implemented cloud alternatives: migrated from Ollama to Grok API, ChromaDB to Upstash vector database, designed the interface with V0.dev, and deployed on Vercel. I broke down each component and tackled them individually.\n\n**Result:** Successfully deployed a live AI application and gained deep understanding of RAG systems, vector embeddings, and production deployment pipelines. This experience taught me that complex challenges become manageable through systematic breakdown and persistent problem-solving."

/-- `ResponseTemplateGenerator._format_learning_response` (the fixed learning-response template) -/
def format_learning_response : String :=
  "Great question! This actually happened during my Full Stack Developer internship with ausbiz Consulting, which was a 10-week intensive program.\n\n**Situation:** I had some basic coding knowledge from university, but I hadn't worked with modern production frameworks like React 19, Next.js 15, or cloud deployment before. The program was fast-paced, and we were expected to build and deploy real applications within those 10 weeks.\n\n**Task:** I needed to quickly master these technologies to successfully complete the program and build production-ready applications.\n\n**Action:** I adopted a very hands-on learning approach. I'd watch the training materials, but then immediately apply what I learned by building small features. I also made heavy use of GitHub Copilot and ChatGPT - not just to write code, but to understand *why* the code worked that way. When I got stuck, I'd ask specific questions rather than broad ones. For example, when learning about server-side rendering in Next.js, I didn't just read about it - I built a small feature that required SSR, broke it, and fixed it. That's how the concepts really stuck.\n\n**Result:** By the end of those 10 weeks, I had built multiple full-stack applications with React 19 and Next.js 15, integrated PostgreSQL databases with Prisma ORM, worked with AWS cloud services, and deployed production-ready applications to Vercel. I also earned my Full Stack Developer certification. This experience taught me that I thrive in intensive learning environments, and that I'm capable of picking up new technologies quickly when I combine structured learning with hands-on practice."

/-- `ResponseTemplateGenerator._format_time_management_response` -/
def format_time_management_response : String :=
  "This is something I actually deal with every day! Right now, I'm managing my AI Builder internship, working as a Student Tutor and Mentor at Victoria University, working part-time as a Front Office Receptionist at Royal Albert Hotel, and completing my final year of studies.\n\n**Situation:** I needed to balance four significant commitments while maintaining quality in all areas and meeting everyone's expectations.\n\n**Task:** The challenge was finding a way to manage these responsibilities without burning out or compromising on quality in any area.\n\n**Action:** The key is that these roles actually fit together quite naturally. My mentoring role is most demanding during new student intakes - orientation periods at the start of semester. Those periods usually coincide with my university vacation breaks, when I'm authorized to work full-time on my student visa. My receptionist job is part-time evening shifts, which works perfectly because it doesn't conflict with my day-time university schedule or tutoring sessions. My internship is remote, so I don't lose time commuting. I use strategic scheduling, clear communication with all supervisors, and prioritization based on deadlines and impact.\n\n**Result:** I've successfully maintained all commitments while achieving a 6.17/7.0 GPA, supporting 100+ students, and completing intensive internship programs. What I've learned is that it's not just about being busy - it's about being intentional with your time. Each role actually complements the others - tutoring improves my technical communication, hospitality strengthens customer service skills, and internships provide real-world experience to share with students."

/-- `ResponseTemplateGenerator._format_mentoring_response` -/
def format_mentoring_response : String :=
  "I have a story that really shows how I approach this. I had a student who was struggling with our university's LMS system. She kept saying she was 'bad with technology' and getting frustrated every time she tried to navigate it.\n\n**Situation:** A student was struggling with the university's Learning Management System and was getting increasingly frustrated, convinced she was 'bad with technology.'\n\n**Task:** I needed to help her understand the system in a way that would build her confidence and create lasting understanding, not just solve the immediate problem.\n\n**Action:** Instead of just walking her through the steps again, I sat down and asked her about how she organizes things at home. She told me she's really good at organizing her house - everything has a place, and her kids always come to her when they can't find something. So I reframed the LMS as being like organizing a house. I said 'Think of each subject as a different room. Just like you have a kitchen for cooking and a bedroom for sleeping, each subject has its own space with everything you need for that class.' I showed her how the discussion forums were like the living room where everyone gathers to talk, and the assignment submissions were like a filing cabinet.\n\n**Result:** Suddenly, it all clicked for her. She wasn't bad with technology - she just needed a framework that made sense to her world. Now she's one of the most active students on the platform and even helps other students navigate it. That experience taught me that when someone doesn't understand a concept, it's usually not because they're incapable. It's because I haven't found the right way to connect it to something they already know."

/-- `ResponseTemplateGenerator._format_introduction_response` -/
def format_introduction_response : String :=
  "I'm Jashandeep, a final-year IT student at Victoria University Brisbane with hands-on experience in full-stack development and AI systems.\n\nI've completed two internships with ausbiz Consulting - first as a Full Stack Developer building React and Next.js applications, and currently as an AI Builder developing digital twins and RAG systems. My standout project is the Food RAG Explorer, which I successfully migrated from local development to production using Grok API and Upstash.\n\nI also tutor and mentor over 100 students at university, which has sharpened my ability to communicate complex technical concepts clearly. I'm passionate about creating solutions that make a real impact, and I'm looking forward to contributing that same energy to your team."

/-- A knowledge-base content chunk as consumed by the framework
(a Python dict read with `.get`). -/
structure KBChunk where
  id : Option String := none
  title : Option String := none
  type : Option String := none
  content : Option String := none
  company : Option String := none
  deriving Repr, DecidableEq

/-- `any(keyword in question_lower for keyword in ks)` -/
def anyKeywordIn (ks : List String) (s : String) : Bool :=
  ks.any (fun k => strContains s k)

/-- `ResponseTemplateGenerator._format_generic_behavioral_response` -/
def format_generic_behavioral_response (experiences : List KBChunk) : String :=
  match experiences with
  | exp :: _ =>
    "Let me share an example from my experience at " ++ exp.company.getD "my recent work"
      ++ "...\n\n" ++ exp.content.getD ""
  | [] => "I'd be happy to share an example from my experience..."

/-- `ResponseTemplateGenerator.generate_behavioral_response`: keyword
dispatch over the lower-cased question, with the experience filter feeding
only the generic fallback. -/
def generate_behavioral_response (question : String) (context : List KBChunk) : String :=
  let experiences := context.filter
    (fun item => item.type.getD "" == "experience" || item.type.getD "" == "personal_story")
  let question_lower := lowerStr question
  if anyKeywordIn ["challenging", "difficult", "problem"] question_lower then
    format_challenging_project_response
  else if anyKeywordIn ["learn", "technology", "quickly"] question_lower then
    format_learning_response
  else if anyKeywordIn ["balance", "multiple", "responsibilities"] question_lower then
    format_time_management_response
  else if anyKeywordIn ["mentor", "help", "explain"] question_lower then
    format_mentoring_response
  else if anyKeywordIn ["tell me about yourself", "background"] question_lower then
    format_introduction_response
  else
    format_generic_behavioral_response experiences

/-! ## `ResponseValidator` -/

/-- `ValidationResult` dataclass. -/
structure ValidationResult where
  is_valid : Bool
  issues : List String
  suggestions : List String
  authenticity_score : ℚ
  deriving Repr, DecidableEq

/-- `ResponseValidator._has_first_person_perspective` -/
def has_first_person_perspective (response : String) : Bool :=
  anyKeywordIn ["I ", "my ", "me ", "myself", "I'm ", "I've "] response

open Re in
/-- The regex list of `ResponseValidator._has_specific_details`:
`\d+`, the technology names, the proper names, `\b\d{4}\b`,
`weeks?|months?|days?`. -/
def specific_patterns : List Re :=
  [ digitPlus,
    altL [.lit "React", .lit "Next.js", .lit "Python", .lit "JavaScript", .lit "Vercel", .lit "AWS"],
    altL [.lit "ausbiz", .lit "Victoria University", .lit "Food RAG Explorer"],
    cat [.bnd, digitRep 4, .bnd],
    altL [cat [.lit "week", opt (.lit "s")], cat [.lit "month", opt (.lit "s")],
      cat [.lit "day", opt (.lit "s")]] ]

/-- `ResponseValidator._has_specific_details` -/
def has_specific_details (response : String) : Bool :=
  matchesAny specific_patterns response

/-- `ResponseValidator._check_response_length`: `none` when the length is
acceptable, otherwise the issue string. -/
def check_response_length (response : String) (query_type : QueryType) : Option String :=
  let word_count := wordCount response
  if query_type = .behavioral then
    if word_count < 80 then some "Behavioral response too short (should be 120-200 words)"
    else if word_count > 250 then some "Behavioral response too long (should be 120-200 words)"
    else none
  else if query_type = .technical then
    if word_count < 60 then some "Technical response too short (should be 80-150 words)"
    else if word_count > 200 then some "Technical response too long (should be 80-150 words)"
    else none
  else none

/-- `ResponseValidator._has_star_structure` -/
def has_star_structure (response : String) : Bool :=
  let response_lower := lowerStr response
  let explicit_markers :=
    (["situation", "task", "action", "result"].filter
      (fun i => strContains response_lower i)).length
  let has_context := anyKeywordIn ["when i", "during my", "at the time"] response_lower
  let has_challenge := anyKeywordIn ["needed to", "had to", "challenge was"] response_lower
  let has_action := anyKeywordIn ["i did", "i implemented", "i decided"] response_lower
  let has_outcome := anyKeywordIn ["result", "outcome", "success", "learned"] response_lower
  decide (explicit_markers ≥ 2) || (has_context && has_challenge && has_action && has_outcome)

/-- `ResponseValidator._calculate_authenticity_score`:
`0.2` per personal indicator, `+0.3` for specific details, `0.1` per
honesty indicator, `+0.2` for conversational tone, capped at `1.0`. -/
def calculate_authenticity_score (response : String) : ℚ :=
  let personal := (["my experience", "when I", "I worked", "I built", "I learned"].filter
    (fun i => strContains response i)).length
  let score : ℚ := personal * (2 / 10)
  let score := score + (if has_specific_details response then 3 / 10 else 0)
  let honest := (["challenging", "difficult", "learned", "mistake", "improved"].filter
    (fun i => strContains response i)).length
  let score := score + honest * (1 / 10)
  let score := score +
    (if anyKeywordIn ["I'd", "that's", "it's", "really"] response then 2 / 10 else 0)
  min 1 score

open Re in
/-- `ResponseValidator._check_for_hallucinations` -/
def check_for_hallucinations (response : String) : List String :=
  let issues : List String := []
  let known_companies := ["ausbiz Consulting", "Victoria University", "Royal Albert Hotel"]
  let issues := issues ++
    (if (strContains response "Google" || strContains response "Microsoft"
          || strContains response "Amazon")
        && !(known_companies.any (fun c => strContains response c)) then
      ["Potential hallucination: Unknown company mentioned"] else [])
  let issues := issues ++
    (if Re.search (cat [digitPlus, wsStar, .lit "year", opt (.lit "s"), .lit " of experience"])
        response then
      ["Check experience timeframe accuracy"] else [])
  issues

/-- `ResponseValidator.validate_response`: the issue and suggestion lists
are accumulated in source order; `is_valid` iff no issues. -/
def validate_response (response : String) (query_type : QueryType) : ValidationResult :=
  let issues : List String := []
  let suggestions : List String := []
  let (issues, suggestions) :=
    if !has_first_person_perspective response then
      (issues ++ ["Response lacks first-person perspective"],
       suggestions ++ ["Use 'I', 'my', 'me' to personalize the response"])
    else (issues, suggestions)
  let (issues, suggestions) :=
    if !has_specific_details response then
      (issues ++ ["Response lacks specific details"],
       suggestions ++ ["Add specific examples, numbers, or concrete details"])
    else (issues, suggestions)
  let (issues, suggestions) :=
    match check_response_length response query_type with
    | some length_issue =>
      (issues ++ [length_issue],
       suggestions ++ ["Adjust response length to match question complexity"])
    | none => (issues, suggestions)
  let (issues, suggestions) :=
    if query_type = .behavioral && !has_star_structure response then
      (issues ++ ["Behavioral response missing STAR structure"],
       suggestions ++ ["Include Situation, Task, Action, Result elements"])
    else (issues, suggestions)
  let authenticity_score := calculate_authenticity_score response
  let issues := issues ++ check_for_hallucinations response
  { is_valid := issues.isEmpty
    issues := issues
    suggestions := suggestions
    authenticity_score := authenticity_score }

/-! ## `InterviewOptimizedDigitalTwin` — context selection and company add-on -/

/-- The `relevant_types` mapping of `_extract_relevant_context`; the Python
dict lacks entries for `GENERAL` and `PERSONAL_STORY`, which therefore fall
to the `.get` default `['experience', 'skills']`. -/
def relevant_types : QueryType → List String
  | .behavioral => ["experience", "personal_story", "strengths"]
  | .technical => ["skills", "projects", "education"]
  | .project_specific => ["projects"]
  | .salary_location => ["salary_location", "availability"]
  | .availability => ["availability"]
  | .company_specific => ["career", "strengths"]
  | .personal_story => ["experience", "skills"]
  | .general => ["experience", "skills"]

/-- `InterviewOptimizedDigitalTwin._extract_relevant_context`: filter the
knowledge-base chunks to the allowed types, keep the first 3. -/
def extract_relevant_context (query_type : QueryType) (content_chunks : List KBChunk) :
    List KBChunk :=
  let target_types := relevant_types query_type
  (content_chunks.filter
    (fun chunk => match chunk.type with
      | some t => target_types.contains t
      | none => false)).take 3

/-- `InterviewOptimizedDigitalTwin._customize_for_company` (the in-framework
variant): appends a fixed lead-in when the company context is non-empty. -/
def customize_for_company_itf (response : String) (company_context : String) : String :=
  if company_context ≠ "" then
    response ++ "\n\nBased on what I know about " ++ company_context
      ++ ", this experience seems particularly relevant because..."
  else response

/-! ## `scripts/recruiter_satisfaction_trainer.py` — `RecruiterSatisfactionTrainer` -/

/-- The `context` dict of `analyze_response_quality` (keys the code reads:
`role_type`, `company` with default `''`, `key_skills` with default `[]`). -/
structure TrainerContext where
  role_type : Option String := none
  company : String := ""
  key_skills : List String := []
  deriving Repr, DecidableEq

/-- `RecruiterSatisfactionTrainer._analyze_content_quality` -/
def analyze_content_quality (response : String) (context : TrainerContext) : Nat :=
  let rl := lowerStr response
  let score := 0
  let score := score +
    (if anyKeywordIn ["%", "increased", "decreased", "improved", "reduced", "grew", "achieved"] rl
     then 25 else 0)
  let score := score +
    (if context.role_type == some "technical" &&
        anyKeywordIn ["architecture", "implementation", "optimization", "scalability", "performance"] rl
     then 20 else 0)
  let company_name := lowerStr context.company
  let score := score + (if company_name ≠ "" && strContains rl company_name then 15 else 0)
  let relevance_count :=
    (context.key_skills.filter (fun skill => strContains rl (lowerStr skill))).length
  let score := score + min (relevance_count * 5) 20
  let score := score +
    (if anyKeywordIn ["when", "where", "how", "specifically", "for example", "instance"] rl
     then 20 else 0)
  min score 100

/-- `RecruiterSatisfactionTrainer._analyze_structure` -/
def analyze_structure (response : String) (question : String) : Nat :=
  let rl := lowerStr response
  let score := 0
  let score := score +
    (if anyKeywordIn ["tell me about", "describe a time", "give me an example"] (lowerStr question)
     then ((["situation", "task", "action", "result"].filter
            (fun e => strContains rl e)).length) * 15
     else 0)
  let score := score +
    (if anyKeywordIn ["first", "then", "next", "finally", "as a result", "this led to"] rl
     then 20 else 0)
  let word_count := wordCount response
  let score := score +
    (if 225 ≤ word_count && word_count ≤ 450 then 30
     else if (180 ≤ word_count && word_count < 225) || (450 < word_count && word_count ≤ 500)
       then 20
     else if word_count < 180 || word_count > 500 then 10
     else 0)
  let score := score +
    (if anyKeywordIn ["in summary", "overall", "this experience", "as a result", "ultimately"] rl
     then 20 else 0)
  min score 100

/-- `RecruiterSatisfactionTrainer._analyze_professional_impact` -/
def analyze_professional_impact (response : String) : Nat :=
  let rl := lowerStr response
  let score := 0
  let leadership_count :=
    (["led", "managed", "coordinated", "initiated", "drove", "spearheaded"].filter
      (fun k => strContains rl k)).length
  let score := score + min (leadership_count * 15) 30
  let score := score +
    (if anyKeywordIn ["team", "collaborated", "worked with", "cross-functional", "stakeholders"] rl
     then 20 else 0)
  let has_problem :=
    anyKeywordIn ["challenge", "problem", "obstacle", "difficulty", "issue", "solved"] rl
  let has_solution := anyKeywordIn ["solution", "approach", "strategy", "method", "resolved"] rl
  let score := score + (if has_problem && has_solution then 25 else 0)
  let score := score +
    (if anyKeywordIn ["improved", "optimized", "enhanced", "streamlined", "automated", "innovated"] rl
     then 25 else 0)
  min score 100

/-- `RecruiterSatisfactionTrainer._analyze_engagement` -/
def analyze_engagement (response : String) : Nat :=
  let rl := lowerStr response
  let score := 0
  let score := score +
    (if anyKeywordIn ["learned", "grew", "developed", "gained", "discovered", "realized"] rl
     then 30 else 0)
  let score := score +
    (if anyKeywordIn ["excited", "passionate", "love", "enjoy", "thrive", "motivated"] rl
     then 25 else 0)
  let score := score +
    (if anyKeywordIn ["feedback", "mistake", "challenge", "difficult", "adapted", "adjusted"] rl
     then 25 else 0)
  let score := score +
    (if anyKeywordIn ["continue", "next", "future", "going forward", "plan to", "will"] rl
     then 20 else 0)
  min score 100

/-- The fields of the `analysis` dict that `analyze_response_quality`
computes (recommendations aside). -/
structure QualityAnalysis where
  content_score : Nat
  structure_score : Nat
  impact_score : Nat
  engagement_score : Nat
  overall_score : ℚ
  satisfaction_prediction : ℚ
  deriving Repr, DecidableEq

/-- `RecruiterSatisfactionTrainer.analyze_response_quality`: the four
component scores, their weighted sum, and the capped linear satisfaction
prediction (`overall * 0.92 + 8`, at most `100`). -/
def analyze_response_quality (response question : String) (context : TrainerContext) :
    QualityAnalysis :=
  let content_score := analyze_content_quality response context
  let structure_score := analyze_structure response question
  let impact_score := analyze_professional_impact response
  let engagement_score := analyze_engagement response
  let overall_score : ℚ :=
    content_score * (35 / 100) + structure_score * (25 / 100)
      + impact_score * (25 / 100) + engagement_score * (15 / 100)
  { content_score := content_score
    structure_score := structure_score
    impact_score := impact_score
    engagement_score := engagement_score
    overall_score := overall_score
    satisfaction_prediction := min (overall_score * (92 / 100) + 8) 100 }

/-! ## `company_response_customizer.py` — `CompanyResponseCustomizer` -/

/-- `CompanyProfile` dataclass. -/
structure CompanyProfile where
  name : String
  industry : String
  tech_stack : List String
  values : List String
  size : String
  culture_keywords : List String
  recent_news : List String
  deriving Repr, DecidableEq

/-- One entry of the `industry_patterns` table. -/
structure IndustryPattern where
  keywords : List String
  tech_emphasis : List String
  value_props : List String
  deriving Repr, DecidableEq

/-- `self.brisbane_companies`, a dict in insertion order (key, profile). -/
def brisbane_companies : List (String × CompanyProfile) :=
  [ ("suncorp",
     { name := "Suncorp Group"
       industry := "Financial Services/Insurance"
       tech_stack := ["Java", "Python", "AWS", "Microservices", "React", "API Gateway"]
       values := ["Customer First", "Own It", "Be Bold", "Stay Curious"]
       size := "Large Enterprise (14,000+ employees)"
       culture_keywords := ["innovation", "digital transformation", "customer-centric", "agile"]
       recent_news := ["Digital banking transformation", "Cloud-first strategy", "AI/ML initiatives"] }),
    ("flight_centre",
     { name := "Flight Centre Travel Group"
       industry := "Travel Technology"
       tech_stack := ["Java", "JavaScript", "React", "Node.js", "AWS", "Microservices"]
       values := ["People First", "Customer Focused", "Bright Future", "Ownership"]
       size := "Large Enterprise (18,000+ employees)"
       culture_keywords := ["innovation", "travel tech", "customer experience", "global"]
       recent_news := ["Travel recovery technology", "Digital experience platforms", "Mobile innovation"] }),
    ("xero",
     { name := "Xero"
       industry := "FinTech/SaaS"
       tech_stack := ["C#", "React", "AWS", "Microservices", "TypeScript", "GraphQL"]
       values := ["Human", "Purposeful", "Adventurous"]
       size := "Large (4,000+ employees)"
       culture_keywords := ["small business", "beautiful software", "innovation", "human"]
       recent_news := ["AI automation features", "Small business platform expansion", "Developer API growth"] }),
    ("technologyone",
     { name := "TechnologyOne"
       industry := "Enterprise Software/SaaS"
       tech_stack := ["Java", "React", "Angular", "AWS", "Microservices", "REST APIs"]
       values := ["Innovation", "Quality", "Service", "People"]
       size := "Large (1,300+ employees)"
       culture_keywords := ["enterprise software", "innovation", "continuous improvement", "customer success"]
       recent_news := ["SaaS transformation", "AI-powered solutions", "Government sector growth"] }) ]

/-- `self.industry_patterns`, in insertion order (key, patterns). -/
def industry_patterns : List (String × IndustryPattern) :=
  [ ("fintech",
     { keywords := ["financial", "banking", "payments", "investment", "trading"]
       tech_emphasis := ["security", "scalability", "compliance", "data analytics"]
       value_props := ["quantitative thinking", "attention to detail", "regulatory understanding"] }),
    ("consulting",
     { keywords := ["consulting", "advisory", "transformation", "strategy"]
       tech_emphasis := ["client solutions", "adaptability", "communication"]
       value_props := ["problem-solving", "client focus", "business impact"] }),
    ("startup",
     { keywords := ["startup", "scale-up", "growth", "agile"]
       tech_emphasis := ["rapid development", "MVP", "innovation", "flexibility"]
       value_props := ["adaptability", "ownership", "growth mindset"] }) ]

/-- The closing lines shared by `_customize_for_known_company` and
`_add_industry_customization`:
`if customizations: return base_response + "".join(customizations)` /
`return base_response`. -/
def append_customizations (base_response : String) (customizations : List String) : String :=
  if !customizations.isEmpty then base_response ++ String.join customizations
  else base_response

/-- `CompanyResponseCustomizer._identify_company`: first dict entry whose
key, or whose profile name lower-cased, occurs in the lower-cased context. -/
def identify_company (company_context : String) : Option CompanyProfile :=
  let context_lower := lowerStr company_context
  (brisbane_companies.find? (fun kp =>
    strContains context_lower kp.1 || strContains context_lower (lowerStr kp.2.name))).map
    (fun kp => kp.2)

/-- `CompanyResponseCustomizer._customize_for_known_company`: collects the
triggered add-on sentences in source order and appends their join. -/
def customize_for_known_company (base_response : String) (company : CompanyProfile)
    (query_type : String) : String :=
  let my_tech := ["Python", "JavaScript", "TypeScript", "React", "Next.js", "AWS", "Node.js"]
  let matching_tech := company.tech_stack.filter (fun tech => my_tech.contains tech)
  let customizations : List String :=
    (if !matching_tech.isEmpty && query_type == "technical" then
      ["\nWhat's particularly exciting about " ++ company.name
        ++ " is your tech stack - I have hands-on experience with "
        ++ String.intercalate ", " (matching_tech.take 3)
        ++ ", which aligns well with your technology choices."]
     else [])
    ++ (if query_type == "company_specific" then
         (if company.values.contains "Customer"
             || (company.values.map lowerStr).contains "customer" then
           ["\nYour focus on customer-centricity really resonates with me. Through my mentoring work supporting 100+ students and my hospitality experience, I've learned that understanding user needs is fundamental to building great solutions."]
          else [])
         ++ (if company.values.contains "Innovation"
               || (company.values.map lowerStr).contains "innovation" then
           ["\nI'm particularly drawn to " ++ company.name
             ++ "'s emphasis on innovation. Building cutting-edge AI systems like my RAG implementation and digital twin projects has shown me how exciting it is to work with emerging technologies that solve real problems."]
          else [])
        else [])
    ++ (if company.industry == "Financial Services/Insurance"
           && (query_type == "behavioral" || query_type == "company_specific") then
        ["\nWhile I don't have direct financial services experience, I'm genuinely interested in how technology can improve financial accessibility and user experience. My systematic approach to learning - demonstrated through mastering AI/ML technologies - would help me quickly understand your domain and contribute meaningfully."]
       else [])
    ++ (if company.industry == "Travel Technology" then
        ["\nThe travel industry's focus on user experience and seamless digital interactions aligns perfectly with my full-stack development background and AI integration experience."]
       else [])
    ++ (if strContains company.size "Large Enterprise" then
        ["\nI'm excited about the opportunity to work at enterprise scale - my experience building production systems has shown me the importance of scalability, reliability, and collaboration in larger organizations."]
       else [])
  append_customizations base_response customizations

/-- `CompanyResponseCustomizer._add_industry_customization` (the
`patterns` argument is passed but, as in the source, never read). -/
def add_industry_customization (base_response : String) (industry : String)
    (patterns : IndustryPattern) (query_type : String) : String :=
  let customizations : List String :=
    if industry == "fintech" && (query_type == "behavioral" || query_type == "company_specific")
    then
      ["\nI'm particularly interested in fintech because of the intersection of technology and quantitative problem-solving. While I don't have direct finance experience, my systematic approach to learning complex technologies and my attention to detail in AI system development demonstrate the analytical thinking that's valuable in financial technology."]
    else if industry == "consulting" && query_type == "behavioral" then
      ["\nMy mentoring experience has taught me how to understand different client needs and adapt my communication style accordingly - skills that translate well to consulting environments where you need to quickly understand client contexts and deliver tailored solutions."]
    else if industry == "startup" && (query_type == "behavioral" || query_type == "company_specific")
    then
      ["\nI'm excited about startup environments because of the opportunity to wear multiple hats and have direct impact. My experience managing multiple responsibilities - internship, mentoring, studies, and part-time work - has taught me how to be adaptable and take ownership."]
    else []
  append_customizations base_response customizations

/-- `CompanyResponseCustomizer._add_generic_customization` -/
def add_generic_customization (base_response : String) (query_type : String) : String :=
  if query_type == "company_specific" then
    base_response ++ "\n\nI'd love to learn more about your specific challenges and how I could contribute to your team's success. Based on my research and what we've discussed, it sounds like there's a great alignment between my technical skills and growth mindset and what you're looking for."
  else base_response

/-- `CompanyResponseCustomizer._customize_for_industry`: first industry
whose keyword list hits the lower-cased context wins, generic otherwise. -/
def customize_for_industry (base_response : String) (context : String)
    (query_type : String) : String :=
  let context_lower := lowerStr context
  match industry_patterns.find? (fun ip =>
    ip.2.keywords.any (fun keyword => strContains context_lower keyword)) with
  | some ip => add_industry_customization base_response ip.1 ip.2 query_type
  | none => add_generic_customization base_response query_type

/-- `CompanyResponseCustomizer.customize_response` -/
def customize_response (base_response : String) (company_context : String)
    (query_type : String) : String :=
  match identify_company company_context with
  | some company_profile => customize_for_known_company base_response company_profile query_type
  | none => customize_for_industry base_response company_context query_type

/-! ## Helper lemmas -/

/-- `query_namespace` is the namespace filter followed by formatting (the
`if not results` guard is absorbed: filtering an empty list is empty). -/
theorem query_namespace_eq (q n : String) (k : Nat) (raw : List RawResult) :
    query_namespace q n k raw
      = (raw.filter (fun r => rawNamespaceOf r == n)).map formatResult := by
  unfold query_namespace
  split
  · next h =>
    rw [List.isEmpty_iff] at h
    subst h
    rfl
  · rfl

/-- Membership in the output of `query_namespace`. -/
theorem mem_query_namespace {c : ChunkInfo} {q n : String} {k : Nat}
    {raw : List RawResult} :
    c ∈ query_namespace q n k raw
      ↔ ∃ r ∈ raw, rawNamespaceOf r = n ∧ c = formatResult r := by
  rw [query_namespace_eq]
  simp only [List.mem_map, List.mem_filter, beq_iff_eq]
  constructor
  · rintro ⟨r, ⟨hr, hns⟩, rfl⟩
    exact ⟨r, hr, hns, rfl⟩
  · rintro ⟨r, hr, hns, rfl⟩
    exact ⟨r, ⟨hr, hns⟩, rfl⟩

theorem string_append_empty (s : String) : s ++ "" = s := by
  simp

/-! ## Claims -/

/-- C1. For every query text, every namespace `n ∈ {"dt", "food"}` and
every raw result list, `query_namespace` returns only results whose
namespace metadata equals `n`; consequently no "food"/"foods" result in a
"dt" query and no "dt" result in a "food" query; a raw result with no
metadata at all is dropped; and a store holding only other-namespace
chunks yields the empty list rather than an error. -/
theorem query_namespace_filters_strictly (q n : String) (k : Nat)
    (raw : List RawResult) (hn : n = "dt" ∨ n = "food") :
    (∀ c ∈ query_namespace q n k raw, c.ns = n)
    ∧ (n = "dt" → ∀ c ∈ query_namespace q n k raw, c.ns ≠ "food" ∧ c.ns ≠ "foods")
    ∧ (n = "food" → ∀ c ∈ query_namespace q n k raw, c.ns ≠ "dt")
    ∧ (∀ r ∈ raw, r.metadata = none → formatResult r ∉ query_namespace q n k raw)
    ∧ ((∀ r ∈ raw, rawNamespaceOf r ≠ n) → query_namespace q n k raw = []) := by
  have hmem : ∀ c ∈ query_namespace q n k raw, c.ns = n := by
    intro c hc
    rcases mem_query_namespace.mp hc with ⟨r, _, hns, rfl⟩
    simpa [formatResult] using hns
  refine ⟨hmem, ?_, ?_, ?_, ?_⟩
  · rintro rfl c hc
    have := hmem c hc
    rw [this]
    exact ⟨by decide, by decide⟩
  · rintro rfl c hc
    rw [hmem c hc]
    decide
  · intro r _ hnone hmem2
    have h1 := hmem _ hmem2
    have h2 : (formatResult r).ns = "unknown" := by
      simp [formatResult, rawNamespaceOf, hnone]
    rw [h2] at h1
    rcases hn with rfl | rfl <;> exact absurd h1 (by decide)
  · intro hall
    rw [query_namespace_eq]
    have : raw.filter (fun r => rawNamespaceOf r == n) = [] := by
      rw [List.filter_eq_nil_iff]
      intro r hr
      simpa using hall r hr
    rw [this]
    rfl

/-- Witness for C1: end-to-end scenario 3 — a "dt" query against a store
holding only a "food" chunk returns the empty list. -/
theorem query_namespace_filters_strictly_witness :
    query_namespace "nutrition protein" "dt" 3
      [{ id := "food-1", score := 9/10,
         metadata := some { title := some "Proteins", type := some "food_item",
                            ns := some "food" } }] = [] :=
  (query_namespace_filters_strictly "nutrition protein" "dt" 3 _ (Or.inl rfl)).2.2.2.2
    (by decide)

/-- C2. Every chunk the digital-twin embedding script upserts gets id
prefix `dt-` and namespace metadata `"digitaltwin"`; every chunk the foods
script upserts gets id prefix `food-` and namespace metadata `"foods"`;
and in both cases the stored chunk passes `query_namespace`'s filter for
its own namespace value. -/
theorem upsert_namespace_consistency (c : SrcChunk) (score : ℚ) (q : String) (k : Nat) :
    (∃ rest, (dtVector c).id = "dt-" ++ rest)
    ∧ (dtVector c).meta.ns = some "digitaltwin"
    ∧ query_namespace q "digitaltwin" k [asRawResult (dtVector c) score]
        = [formatResult (asRawResult (dtVector c) score)]
    ∧ (∃ rest, (foodVector c).id = "food-" ++ rest)
    ∧ (foodVector c).meta.ns = some "foods"
    ∧ query_namespace q "foods" k [asRawResult (foodVector c) score]
        = [formatResult (asRawResult (foodVector c) score)] :=
  ⟨⟨c.id, rfl⟩, rfl, rfl, ⟨c.id, rfl⟩, rfl, rfl⟩

/-- C8. An exception from the store's query call yields `[]` rather than a
propagated error, and generation over an empty chunk list returns the
descriptive placeholder without consulting the completion service (the
result is the same for any two completion services). -/
theorem errors_degrade_gracefully (e q n : String) (k : Nat)
    (f g : String → String → Except String String) (query ns : String) :
    query_namespace_exc (Except.error e) q n k = []
    ∧ generate_response f query [] ns
        = "I couldn't find relevant information in the '" ++ ns
            ++ "' namespace for your query."
    ∧ generate_response f query [] ns = generate_response g query [] ns :=
  ⟨rfl, rfl, rfl⟩

/-- C10 counterexample: a raw hit whose metadata exists but has no
`namespace` key is returned by a query for namespace "unknown" (with its
own stored title, not the metadata-less defaults), so the "unknown" query
does not return exactly the metadata-less hits. -/
theorem unknown_query_counterexample :
    query_namespace "q" "unknown" 5
        [{ id := "x1", score := 1, metadata := some { title := some "X" } }]
      = [{ id := "x1", score := 1, title := "X", type := "unknown",
           category := "general", content := "", tags := [], ns := "unknown" }]
    ∧ ({ id := "x1", score := 1, metadata := some { title := some "X" } } : RawResult).metadata
        ≠ none := by
  exact ⟨rfl, by simp⟩

/-- C10 (amended). A metadata-less raw result derives namespace "unknown"
and formats with the defaults (title "Untitled", empty content, type
"unknown"); `query_namespace` with namespace argument "unknown" returns
exactly the raw hits whose derived namespace is "unknown" — the
metadata-less ones together with those whose metadata lacks a `namespace`
key (or maps it to "unknown") — while every namespace argument other than
"unknown" excludes all metadata-less hits. -/
theorem unknown_namespace_behaviour (q n : String) (k : Nat) (raw : List RawResult)
    (id : String) (sc : ℚ) :
    query_namespace q "unknown" k raw
      = (raw.filter (fun r => rawNamespaceOf r == "unknown")).map formatResult
    ∧ rawNamespaceOf { id := id, score := sc, metadata := none } = "unknown"
    ∧ formatResult { id := id, score := sc, metadata := none }
        = { id := id, score := sc, title := "Untitled", type := "unknown",
            category := "general", content := "", tags := [], ns := "unknown" }
    ∧ (n ≠ "unknown" →
        ∀ r ∈ raw, r.metadata = none → formatResult r ∉ query_namespace q n k raw) := by
  refine ⟨query_namespace_eq q "unknown" k raw, rfl, rfl, ?_⟩
  intro hne r _ hnone hmem
  rcases mem_query_namespace.mp hmem with ⟨s, _, hns, heq⟩
  have h2 : (formatResult r).ns = "unknown" := by
    simp [formatResult, rawNamespaceOf, hnone]
  have h3 : (formatResult r).ns = n := by
    rw [heq]
    simpa [formatResult] using hns
  exact hne (h3.symm.trans h2)

/-- Witness for C10: a "dt" query drops a metadata-less raw hit. -/
theorem unknown_namespace_behaviour_witness :
    formatResult { id := "m0", score := 1, metadata := none }
      ∉ query_namespace "qq" "dt" 2 [{ id := "m0", score := 1, metadata := none }] :=
  (unknown_namespace_behaviour "qq" "dt" 2
      [{ id := "m0", score := 1, metadata := none }] "m0" 1).2.2.2
    (by decide) _ (by decide) rfl

/-- C3. `classify_query` is total and deterministic (identical inputs give
identical results) and respects the fixed priority order: the earliest
pattern group that matches the lower-cased question decides the result,
with `GENERAL` when no group matches. -/
theorem classifier_priority_order (q r : String) :
    (q = r → classify_query q = classify_query r)
    ∧ (matchesAny behavioral_patterns (lowerStr q) = true →
        classify_query q = .behavioral)
    ∧ (matchesAny behavioral_patterns (lowerStr q) = false →
        matchesAny technical_patterns (lowerStr q) = true →
        classify_query q = .technical)
    ∧ (matchesAny behavioral_patterns (lowerStr q) = false →
        matchesAny technical_patterns (lowerStr q) = false →
        matchesAny project_patterns (lowerStr q) = true →
        classify_query q = .project_specific)
    ∧ (matchesAny behavioral_patterns (lowerStr q) = false →
        matchesAny technical_patterns (lowerStr q) = false →
        matchesAny project_patterns (lowerStr q) = false →
        matchesAny company_patterns (lowerStr q) = true →
        classify_query q = .company_specific)
    ∧ (matchesAny behavioral_patterns (lowerStr q) = false →
        matchesAny technical_patterns (lowerStr q) = false →
        matchesAny project_patterns (lowerStr q) = false →
        matchesAny company_patterns (lowerStr q) = false →
        matchesAny salary_patterns (lowerStr q) = true →
        classify_query q = .salary_location)
    ∧ (matchesAny behavioral_patterns (lowerStr q) = false →
        matchesAny technical_patterns (lowerStr q) = false →
        matchesAny project_patterns (lowerStr q) = false →
        matchesAny company_patterns (lowerStr q) = false →
        matchesAny salary_patterns (lowerStr q) = false →
        matchesAny availability_patterns (lowerStr q) = true →
        classify_query q = .availability)
    ∧ (matchesAny behavioral_patterns (lowerStr q) = false →
        matchesAny technical_patterns (lowerStr q) = false →
        matchesAny project_patterns (lowerStr q) = false →
        matchesAny company_patterns (lowerStr q) = false →
        matchesAny salary_patterns (lowerStr q) = false →
        matchesAny availability_patterns (lowerStr q) = false →
        classify_query q = .general) := by
  refine ⟨fun h => by rw [h], ?_, ?_, ?_, ?_, ?_, ?_, ?_⟩ <;>
    · intros
      simp only [classify_query]
      simp [*]

/-- Witness for C3: the first pattern group matches the behavioral
question, so the classifier returns `BEHAVIORAL`. -/
theorem classifier_priority_order_witness :
    classify_query "Do you prefer working in a team or alone?" = .behavioral :=
  (classifier_priority_order "Do you prefer working in a team or alone?" "").2.1 (by decide)

/-- C4 counterexample: the code passes exactly `top_k` to the store
(`index.query(data=query, top_k=top_k, ...)`), never more, and a raw hit
whose id carries the `dt-` prefix but has no metadata is discarded by a
"dt" query — there is no id-prefix fallback check. -/
theorem overfetch_counterexample :
    requestedTopK 5 = 5
    ∧ ¬ 5 < requestedTopK 5
    ∧ query_namespace "q" "dt" 5 [{ id := "dt-chunk-1", score := 1, metadata := none }]
        = [] :=
  ⟨rfl, by decide, by decide⟩

/-- C4 (amended). `query_namespace` requests exactly `top_k` raw results
from the backing store (no oversampling), filters them solely by the
`namespace` metadata field (no id-prefix fallback), and returns whatever
matching results remain — never padding and never raising. -/
theorem no_overfetch_behaviour (store : String → Nat → List RawResult)
    (q n : String) (k : Nat) :
    query_namespace_store store q n k
      = ((store q (requestedTopK k)).filter (fun r => rawNamespaceOf r == n)).map formatResult
    ∧ requestedTopK k = k
    ∧ (query_namespace_store store q n k).length ≤ (store q k).length := by
  refine ⟨query_namespace_eq _ _ _ _, rfl, ?_⟩
  rw [query_namespace_store, query_namespace_eq, List.length_map]
  exact List.length_filter_le _ _

/-- C5 counterexample: for the scenario question's own template the
validator reports `is_valid = False` (the claim asserts `True`): the
template is 251 words long and the behavioral length check flags
everything above 250 words. -/
theorem learning_scenario_counterexample :
    (validate_response format_learning_response .behavioral).is_valid = false := by decide

/-- C5 (amended). "Tell me about a time you learned something quickly"
classifies as `BEHAVIORAL`; the generator returns the fixed learning
template for any context; the template contains "ausbiz Consulting" and
"10 weeks" and has word count 251 (within 120–300); but `validate_response`
reports `is_valid = False`, with exactly the behavioral length issue. -/
theorem learning_scenario (context : List KBChunk) :
    classify_query "Tell me about a time you learned something quickly" = .behavioral
    ∧ generate_behavioral_response "Tell me about a time you learned something quickly"
        context = format_learning_response
    ∧ strContains format_learning_response "ausbiz Consulting" = true
    ∧ strContains format_learning_response "10 weeks" = true
    ∧ wordCount format_learning_response = 251
    ∧ 120 ≤ wordCount format_learning_response
    ∧ wordCount format_learning_response ≤ 300
    ∧ (validate_response format_learning_response .behavioral).is_valid = false
    ∧ (validate_response format_learning_response .behavioral).issues
        = ["Behavioral response too long (should be 120-200 words)"] := by
  refine ⟨by decide, rfl, by decide, by decide, by decide, by decide, by decide,
    by decide, by decide⟩

/-- C6. Every component score lies in [0, 100]; the overall score is the
weighted sum with weights 0.35 / 0.25 / 0.25 / 0.15; and the satisfaction
prediction is `min (overall × 0.92 + 8) 100`. -/
theorem scoring_formulas (response question : String) (context : TrainerContext) :
    ((analyze_response_quality response question context).content_score ≤ 100
      ∧ (analyze_response_quality response question context).structure_score ≤ 100
      ∧ (analyze_response_quality response question context).impact_score ≤ 100
      ∧ (analyze_response_quality response question context).engagement_score ≤ 100)
    ∧ (analyze_response_quality response question context).overall_score
        = (analyze_response_quality response question context).content_score * (35 / 100)
          + (analyze_response_quality response question context).structure_score * (25 / 100)
          + (analyze_response_quality response question context).impact_score * (25 / 100)
          + (analyze_response_quality response question context).engagement_score * (15 / 100)
    ∧ (analyze_response_quality response question context).satisfaction_prediction
        = min ((analyze_response_quality response question context).overall_score * (92 / 100)
            + 8) 100 := by
  refine ⟨⟨?_, ?_, ?_, ?_⟩, rfl, rfl⟩
  · exact Nat.min_le_right _ _
  · exact Nat.min_le_right _ _
  · exact Nat.min_le_right _ _
  · exact Nat.min_le_right _ _

/-- C7. Context selection returns at most 3 chunks, each with a type from
the intent's allow-list, as a subsequence of the supplied chunks (original
order, no re-ranking); intents without a configured mapping (`GENERAL`,
`PERSONAL_STORY`) use the default allow-list `["experience", "skills"]`. -/
theorem context_selection_spec (query_type : QueryType) (chunks : List KBChunk) :
    (extract_relevant_context query_type chunks).length ≤ 3
    ∧ (∀ c ∈ extract_relevant_context query_type chunks,
        ∃ t, c.type = some t ∧ t ∈ relevant_types query_type)
    ∧ List.Sublist (extract_relevant_context query_type chunks) chunks
    ∧ relevant_types .general = ["experience", "skills"]
    ∧ relevant_types .personal_story = ["experience", "skills"] := by
  refine ⟨?_, ?_, ?_, rfl, rfl⟩
  · rw [extract_relevant_context]
    exact le_trans (List.length_take_le _ _) (le_refl 3)
  · intro c hc
    rw [extract_relevant_context] at hc
    have hmem := List.mem_of_mem_take hc
    rw [List.mem_filter] at hmem
    rcases hmem with ⟨_, hp⟩
    cases ht : c.type with
    | none => rw [ht] at hp; simp at hp
    | some t =>
      rw [ht] at hp
      exact ⟨t, rfl, by simpa using hp⟩
  · rw [extract_relevant_context]
    exact (List.take_sublist _ _).trans (List.filter_sublist _)

/-- Witness for C7: a chunk selected for a `GENERAL` question has a type
from the default allow-list. -/
theorem context_selection_spec_witness :
    ∃ t, ({ title := some "AI Builder Experience", type := some "experience" } : KBChunk).type
          = some t ∧ t ∈ relevant_types .general :=
  (context_selection_spec .general
      [{ title := some "AI Builder Experience", type := some "experience" }]).2.1
    { title := some "AI Builder Experience", type := some "experience" } (by decide)

/-- Appending the join of a (possibly empty) customization list, or
returning the base unchanged, always yields an extension of the base. -/
theorem append_customizations_append (b : String) (l : List String) :
    ∃ t, append_customizations b l = b ++ t := by
  cases h : l.isEmpty with
  | true => exact ⟨"", by simp [append_customizations, h]⟩
  | false => exact ⟨String.join l, by simp [append_customizations, h]⟩

/-- The known-company path only ever appends to the base response. -/
theorem customize_known_append (base : String) (c : CompanyProfile) (qt : String) :
    ∃ t, customize_for_known_company base c qt = base ++ t :=
  append_customizations_append base _

/-- The industry-pattern path only ever appends to the base response. -/
theorem customize_industry_append (base ctx qt : String) :
    ∃ t, customize_for_industry base ctx qt = base ++ t := by
  show ∃ t,
    (match List.find? (fun ip => ip.2.keywords.any fun keyword =>
        strContains (lowerStr ctx) keyword) industry_patterns with
      | some ip => add_industry_customization base ip.1 ip.2 qt
      | none => add_generic_customization base qt) = base ++ t
  cases List.find? (fun ip => ip.2.keywords.any fun keyword =>
      strContains (lowerStr ctx) keyword) industry_patterns with
  | some ip => exact append_customizations_append base _
  | none =>
    cases h : qt == "company_specific" with
    | true =>
      exact ⟨"\n\nI'd love to learn more about your specific challenges and how I could contribute to your team's success. Based on my research and what we've discussed, it sounds like there's a great alignment between my technical skills and growth mindset and what you're looking for.",
        by simp [add_generic_customization, h]⟩
    | false => exact ⟨"", by simp [add_generic_customization, h]⟩

/-- C9. Company customization is strictly additive: on every path
(known-company, industry-pattern, generic fallback, and the in-framework
variant) the returned string extends the base response, which stays a
prefix. -/
theorem customization_is_additive (base company_context query_type : String) :
    (∃ t, customize_response base company_context query_type = base ++ t)
    ∧ (∃ t, customize_for_company_itf base company_context = base ++ t) := by
  constructor
  · unfold customize_response
    cases hid : identify_company company_context with
    | some p => exact customize_known_append base p query_type
    | none => exact customize_industry_append base company_context query_type
  · unfold customize_for_company_itf
    split
    · exact ⟨_, by rw [String.append_assoc, String.append_assoc]⟩
    · exact ⟨"", (string_append_empty base).symm⟩

end DigitalTwin
